import Mathlib

/-!
Verification of the Suggestion Scoring Engine of `app_simple.py`.

The Python source is shallowly embedded below.  Text is modelled over
`List Char` (Python `str` over code points), Python `float` arithmetic over
`ℚ` (every constant in the program is a short decimal, and all claim-relevant
comparisons are far from binary-rounding boundaries), Python `int` over `ℤ`,
and the SQLite table `hcc_mappings` as the literal list of seeded rows
(`init_simple_db` deletes and re-creates the database on every search, so the
table contents are exactly the seed list).  `ORDER BY raf_value DESC` is
modelled as a stable descending sort (ties keep table order), and
`list(set(xs))` as order-preserving deduplication; every concrete input used
in a counterexample or witness below has been chosen so that the result does
not depend on either tie order or on CPython set iteration order.
-/

attribute [local semireducible] Rat.ofScientific Rat.mul Rat.add Rat.sub Rat.inv

set_option maxRecDepth 1000000

set_option maxHeartbeats 2000000

namespace AlphaAudit

/-! ## String utilities (Python `str` semantics over `List Char`) -/

/-- List-level check that the first list is a leading segment of the second. -/
def pfxL : List Char → List Char → Bool
  | [], _ => true
  | _ :: _, [] => false
  | a :: as, b :: bs => a == b && pfxL as bs

/-- List-level substring test: Python `needle in hay`. -/
def subL (n : List Char) : List Char → Bool
  | [] => n.isEmpty
  | c :: cs => pfxL n (c :: cs) || subL n cs

/-- Python `needle in hay` on strings (substring containment). -/
def pyIn (needle hay : String) : Bool := subL needle.data hay.data

/-- Python `s.lower()` (ASCII, which covers every string in the program). -/
def lowerS (s : String) : String := ⟨s.data.map Char.toLower⟩

/-- Python `s.startswith(p)` / SQL `LIKE 'p%'` (used case-insensitively below). -/
def startsW (p s : String) : Bool := pfxL p.data s.data

/-- Split a character list at every occurrence of `sep`, keeping empty pieces. -/
def splitChAux (sep : Char) : List Char → List Char → List (List Char)
  | [], acc => [acc.reverse]
  | c :: cs, acc =>
    if c == sep then acc.reverse :: splitChAux sep cs []
    else splitChAux sep cs (c :: acc)

/-- Python `s.split(sep)` for a single-character separator. -/
def splitS (sep : Char) (s : String) : List String :=
  (splitChAux sep s.data []).map (fun l => ⟨l⟩)

/-- Python `s.split()`: whitespace split, dropping empty pieces (the program's
texts contain no tabs or newlines, so splitting on spaces is exact). -/
def pySplitWs (s : String) : List String := (splitS ' ' s).filter (fun w => w ≠ "")

/-- Whitespace test for `strip`. -/
def wsChar (c : Char) : Bool := c == ' ' || c == '\t' || c == '\n' || c == '\r'

/-- Python `s.strip()`. -/
def pyStrip (s : String) : String :=
  ⟨((s.data.dropWhile wsChar).reverse.dropWhile wsChar).reverse⟩

/-- Python `list(set(xs))`, modelled as order-preserving deduplication (CPython's
set order is hash-dependent but fixed within a process; no claim below depends
on the order chosen). -/
def pySet (l : List String) : List String :=
  l.foldl (fun acc x => if acc.contains x then acc else acc ++ [x]) []

/-- Group a reversed digit list into blocks of three, comma-separated. -/
def group3 : List Char → List Char
  | a :: b :: c :: d :: rest => a :: b :: c :: ',' :: group3 (d :: rest)
  | l => l

/-- Python `f"{n:,}"` thousands-separated integer formatting. -/
def commaFmt (n : ℤ) : String :=
  (if n < 0 then "-" else "") ++ ⟨(group3 (toString n.natAbs).data.reverse).reverse⟩

/-- Fractional decimal digits of a rational in `[0,1)` (fuelled; every value
formatted by the program is an exact short decimal, so the fuel is ample
and no trailing zeros are produced, matching `repr` of the Python float). -/
def fracDigits : ℕ → ℚ → String
  | 0, _ => ""
  | n + 1, r =>
    if r = 0 then ""
    else toString ⌊r * 10⌋ ++ fracDigits n (r * 10 - ⌊r * 10⌋)

/-- Python `f"{x}"` for the nonnegative floats interpolated by the program. -/
def fmtQ (q : ℚ) : String :=
  toString ⌊q⌋ ++ "." ++ (if fracDigits 30 (q - ⌊q⌋) = "" then "0" else fracDigits 30 (q - ⌊q⌋))

/-- Python `f"{x}"` for an `Optional[int]` (absent prints as `None`). -/
def fmtOptInt : Option ℤ → String
  | none => "None"
  | some a => toString a

/-! ## Python numeric primitives -/

/-- Python `round(q)`: round half to even. -/
def pythonRound (q : ℚ) : ℤ :=
  if q - ⌊q⌋ < 1/2 then ⌊q⌋
  else if 1/2 < q - ⌊q⌋ then ⌊q⌋ + 1
  else if ⌊q⌋ % 2 = 0 then ⌊q⌋ else ⌊q⌋ + 1

/-- Python `round(q, n)`. -/
def roundTo (n : ℕ) (q : ℚ) : ℚ := (pythonRound (q * 10 ^ n) : ℚ) / 10 ^ n

/-- Python `int(q)`: truncation toward zero. -/
def pyInt (q : ℚ) : ℤ := if 0 ≤ q then ⌊q⌋ else -⌊-q⌋

/-! ## Stable descending sort

Python's `list.sort(key=…, reverse=True)` and SQLite's `ORDER BY … DESC` over
the seeded table are modelled by a stable insertion sort: an element moves
ahead of exactly those earlier elements it is strictly greater than, so equal
keys keep their original relative order. -/

/-- Insert `x` into `l` directly before the first element it strictly beats. -/
def insG (gt : α → α → Bool) (x : α) : List α → List α
  | [] => [x]
  | y :: ys => if gt x y then x :: y :: ys else y :: insG gt x ys

/-- Stable sort placing strictly greater elements first. -/
def sortG (gt : α → α → Bool) (l : List α) : List α :=
  l.foldl (fun acc x => insG gt x acc) []

/-! ## Lexicographic comparison of Python tuples of numbers -/

/-- Python `<` on a 3-tuple of numbers. -/
def tupLt (a b : ℚ × ℚ × ℚ) : Prop :=
  a.1 < b.1 ∨ (a.1 = b.1 ∧ (a.2.1 < b.2.1 ∨ (a.2.1 = b.2.1 ∧ a.2.2 < b.2.2)))

instance (a b : ℚ × ℚ × ℚ) : Decidable (tupLt a b) := by
  unfold tupLt; infer_instance

/-! ## The seeded `hcc_mappings` table -/

/-- One row of the `hcc_mappings` table. -/
structure Row where
  icd_code : String
  description : String
  hcc_category : String
  raf_value : ℚ
  annual_impact : ℤ
  deriving DecidableEq, Repr, Inhabited

/-- The rows seeded by `init_simple_db`, in insertion order. -/
def sample_data : List Row := [
  ⟨"E11.9", "Type 2 diabetes mellitus without complications", "No HCC", 0.0, 0⟩,
  ⟨"E10.9", "Type 1 diabetes mellitus without complications", "No HCC", 0.0, 0⟩,
  ⟨"E11.22", "Type 2 diabetes mellitus with diabetic chronic kidney disease", "HCC 18", 0.302, 5134⟩,
  ⟨"E11.51", "Type 2 diabetes mellitus with diabetic peripheral angiopathy without gangrene", "HCC 18", 0.302, 5134⟩,
  ⟨"E11.52", "Type 2 diabetes mellitus with diabetic peripheral angiopathy with gangrene", "HCC 18", 0.302, 5134⟩,
  ⟨"E11.40", "Type 2 diabetes mellitus with diabetic neuropathy, unspecified", "HCC 18", 0.302, 5134⟩,
  ⟨"E11.65", "Type 2 diabetes mellitus with hyperglycemia", "HCC 19", 0.104, 1768⟩,
  ⟨"E11.319", "Type 2 diabetes mellitus with unspecified diabetic retinopathy without macular edema", "HCC 18", 0.302, 5134⟩,
  ⟨"I25.9", "Chronic ischemic heart disease, unspecified", "HCC 86", 0.273, 4641⟩,
  ⟨"I25.10", "Atherosclerotic heart disease of native coronary artery without angina pectoris", "HCC 86", 0.273, 4641⟩,
  ⟨"I50.9", "Heart failure, unspecified", "HCC 85", 0.323, 5491⟩,
  ⟨"I50.1", "Left ventricular failure, unspecified", "HCC 85", 0.323, 5491⟩,
  ⟨"I50.20", "Unspecified systolic (congestive) heart failure", "HCC 85", 0.323, 5491⟩,
  ⟨"I50.22", "Chronic systolic (congestive) heart failure", "HCC 85", 0.323, 5491⟩,
  ⟨"I50.30", "Unspecified diastolic (congestive) heart failure", "HCC 85", 0.323, 5491⟩,
  ⟨"I50.32", "Chronic diastolic (congestive) heart failure", "HCC 85", 0.323, 5491⟩,
  ⟨"I50.40", "Unspecified combined systolic and diastolic heart failure", "HCC 85", 0.323, 5491⟩,
  ⟨"I11.0", "Hypertensive heart disease with heart failure", "HCC 85", 0.323, 5491⟩,
  ⟨"I21.9", "Acute myocardial infarction, unspecified", "HCC 86", 0.273, 4641⟩,
  ⟨"I25.2", "Old myocardial infarction", "HCC 86", 0.273, 4641⟩,
  ⟨"I21.01", "ST elevation (STEMI) myocardial infarction involving left main coronary artery", "HCC 86", 0.273, 4641⟩,
  ⟨"N28.9", "Disorder of kidney and ureter, unspecified", "No HCC", 0.0, 0⟩,
  ⟨"N18.1", "Chronic kidney disease, stage 1", "HCC 139", 0.000, 0⟩,
  ⟨"N18.2", "Chronic kidney disease, stage 2 (mild)", "HCC 139", 0.000, 0⟩,
  ⟨"N18.3", "Chronic kidney disease, stage 3 (moderate)", "HCC 138", 0.287, 4879⟩,
  ⟨"N18.4", "Chronic kidney disease, stage 4 (severe)", "HCC 137", 0.398, 6766⟩,
  ⟨"N18.5", "Chronic kidney disease, stage 5 (severe)", "HCC 136", 0.675, 11475⟩,
  ⟨"N18.6", "End stage renal disease", "HCC 134", 0.675, 11475⟩,
  ⟨"Z94.0", "Kidney transplant status", "HCC 134", 0.525, 8925⟩,
  ⟨"Z99.2", "Dependence on renal dialysis", "HCC 134", 0.525, 8925⟩,
  ⟨"F32.9", "Major depressive disorder, single episode, unspecified", "HCC 155", 0.309, 5253⟩,
  ⟨"F32.1", "Major depressive disorder, single episode, moderate", "HCC 155", 0.309, 5253⟩,
  ⟨"F32.2", "Major depressive disorder, single episode, severe without psychotic features", "HCC 154", 0.331, 5627⟩,
  ⟨"F33.1", "Major depressive disorder, recurrent, moderate", "HCC 155", 0.309, 5253⟩,
  ⟨"F33.2", "Major depressive disorder, recurrent severe without psychotic features", "HCC 154", 0.331, 5627⟩,
  ⟨"J44.0", "Chronic obstructive pulmonary disease with acute lower respiratory infection", "HCC 111", 0.328, 5576⟩,
  ⟨"J44.1", "Chronic obstructive pulmonary disease with (acute) exacerbation", "HCC 111", 0.328, 5576⟩,
  ⟨"C78.00", "Secondary malignant neoplasm of unspecified lung", "HCC 8", 0.677, 11509⟩,
  ⟨"C25.9", "Malignant neoplasm of pancreas, unspecified", "HCC 8", 0.677, 11509⟩,
  ⟨"I63.9", "Cerebral infarction, unspecified", "HCC 100", 0.350, 5950⟩,
  ⟨"G93.1", "Anoxic brain damage, not elsewhere classified", "HCC 100", 0.350, 5950⟩,
  ⟨"K72.90", "Hepatic failure, unspecified without coma", "HCC 27", 0.675, 11475⟩,
  ⟨"K70.30", "Alcoholic cirrhosis of liver without ascites", "HCC 27", 0.675, 11475⟩,
  ⟨"F10.20", "Alcohol dependence, uncomplicated", "HCC 54", 0.328, 5576⟩,
  ⟨"F11.20", "Opioid dependence, uncomplicated", "HCC 54", 0.328, 5576⟩]

/-! ## `search_hcc_codes`: the Code Mapping Store Adapter -/

/-- SQL `column LIKE '%pat%'` (case-insensitive, as SQLite's ASCII LIKE). -/
def likeCI (pat s : String) : Bool := subL (lowerS pat).data (lowerS s).data

/-- SQL `column LIKE 'pat%'` (case-insensitive). -/
def likePrefixCI (pat s : String) : Bool := startsW (lowerS pat) (lowerS s)

/-- The `priority_mappings` table of `search_hcc_codes`, in declaration order. -/
def priority_mappings : List (String × List String) :=
  [("heart", ["heart", "cardiac", "coronary", "myocardial", "ischemic"]),
   ("diabetes", ["diabetes", "diabetic"]),
   ("kidney", ["kidney", "renal", "nephropathy"]),
   ("failure", ["failure"])]

/-- First condition category whose synonym occurs inside the keyword. -/
def classifyKeyword (kw : String) : Option String :=
  (priority_mappings.find? (fun p => p.2.any (fun syn => pyIn syn (lowerS kw)))).map (·.1)

/-- Run one SQL query: filter the table and sort by `raf_value DESC`
(stable, ties keep table order). -/
def queryRows (pred : Row → Bool) : List Row :=
  sortG (fun a b => decide (b.raf_value < a.raf_value)) (sample_data.filter pred)

/-- The WHERE clause of the heart-scoped query. -/
def heartPred (r : Row) : Bool :=
  likeCI "heart" r.description || likeCI "cardiac" r.description ||
  likeCI "coronary" r.description || likeCI "myocardial" r.description ||
  likeCI "ischemic" r.description || likePrefixCI "I" r.icd_code

/-- The WHERE clause of the diabetes-scoped query. -/
def diabetesPred (r : Row) : Bool :=
  likeCI "diabetes" r.description || likeCI "diabetic" r.description ||
  likePrefixCI "E1" r.icd_code

/-- The WHERE clause of the kidney-scoped query. -/
def kidneyPred (r : Row) : Bool :=
  likeCI "kidney" r.description || likeCI "renal" r.description ||
  likeCI "nephropathy" r.description || likePrefixCI "N18" r.icd_code

/-- Rows and relevance score produced for one keyword. -/
def keywordResults (kw : String) : List Row × ℚ :=
  match classifyKeyword kw with
  | some c =>
    if c = "heart" then (queryRows heartPred, 100)
    else if c = "diabetes" then (queryRows diabetesPred, 100)
    else if c = "kidney" then (queryRows kidneyPred, 100)
    else (queryRows (fun r => likeCI kw r.description), 100)
  | none => (queryRows (fun r => likeCI kw r.description || likeCI kw r.icd_code), 50)

/-- Python `<` on the `(relevance_score, raf_value)` sort key. -/
def pairLt (a b : ℚ × ℚ) : Prop := a.1 < b.1 ∨ (a.1 = b.1 ∧ a.2 < b.2)

instance (a b : ℚ × ℚ) : Decidable (pairLt a b) := by
  unfold pairLt; infer_instance

/-- The Code Mapping Store Adapter: accumulate per-keyword query results with
deduplication by code, sort by `(relevance_score, raf_value)` descending, and
return the top 8 rows. -/
def search_hcc_codes (keywords : List String) : List Row :=
  let all_results := (keywords.take 5).foldl (fun acc kw =>
    let res := keywordResults kw
    res.1.foldl (fun acc2 row =>
      if acc2.any (fun p => p.1.icd_code == row.icd_code) then acc2
      else acc2 ++ [(row, res.2)]) acc) ([] : List (Row × ℚ))
  let sorted := sortG
    (fun a b => decide (pairLt (b.2, b.1.raf_value) (a.2, a.1.raf_value))) all_results
  (sorted.take 8).map (·.1)

/-! ## `extract_medical_keywords`: the Keyword & Condition Extractor -/

/-- The structure returned by `extract_medical_keywords`. -/
structure MedicalSignals where
  medical_keywords : List String
  extracted_terms : List String
  chronicity : String
  severity : String
  primary_condition : String
  secondary_conditions : List String
  deriving DecidableEq, Repr, Inhabited

/-- The `medical_terms` table, in declaration order. -/
def medical_terms : List (String × List String) :=
  [("heart", ["heart", "cardiac", "coronary", "myocardial", "cardiovascular", "ischemic heart"]),
   ("heart failure", ["heart failure", "congestive heart failure", "chf", "heart failure"]),
   ("myocardial", ["myocardial", "heart attack", "mi", "coronary artery"]),
   ("kidney", ["kidney", "renal", "nephropathy", "chronic kidney disease", "ckd"]),
   ("dialysis", ["dialysis", "hemodialysis", "peritoneal dialysis"]),
   ("diabetes", ["diabetes", "diabetic", "dm", "blood sugar", "glucose", "hyperglycemia", "hba1c"]),
   ("diabetic complications", ["diabetic nephropathy", "diabetic retinopathy", "diabetic neuropathy"]),
   ("chronic", ["chronic", "long-term", "ongoing"]),
   ("acute", ["acute", "sudden", "emergency"]),
   ("severe", ["severe", "critical", "advanced"]),
   ("moderate", ["moderate", "mild", "stable"])]

/-- The scanning loop of `extract_medical_keywords`: collect every matching
synonym and remember the first matched category from the privileged subset.
The second component is the loop's `primary_condition` value — which the
source then discards (see `extract_medical_keywords`). -/
def scanTerms (textLower : String) : List String × Option String :=
  medical_terms.foldl (fun acc cat =>
    cat.2.foldl (fun acc2 term =>
      if pyIn term textLower then
        (acc2.1 ++ [term],
         if acc2.2 = none ∧ ["heart", "heart failure", "kidney", "diabetes"].contains cat.1
         then some cat.1 else acc2.2)
      else acc2) acc) ([], none)

/-- The Keyword & Condition Extractor.  Faithful to the source: after the scan,
line 484 reassigns `primary_condition = 'unknown'` unconditionally, so the
truthiness test `if primary_condition:` always succeeds and both the scanned
category and the keyword-based `elif` fallbacks are dead. -/
def extract_medical_keywords (text : String) : MedicalSignals :=
  let textLower := lowerS text
  let scanned := scanTerms textLower
  let condition_keywords := scanned.1
  let keywords :=
    if condition_keywords ≠ [] then pySet condition_keywords
    else ["diabetes", "heart", "kidney", "failure", "chronic", "acute"].filter
      (fun t => pyIn t textLower)
  let chronicity :=
    if ["chronic", "long-term", "ongoing"].any (fun t => pyIn t textLower)
    then "chronic" else "acute"
  let severity :=
    if ["severe", "critical", "advanced"].any (fun t => pyIn t textLower) then "severe"
    else if ["moderate", "stable"].any (fun t => pyIn t textLower) then "moderate"
    else "mild"
  let primary_condition := "unknown"
  let primary_condition :=
    if primary_condition ≠ "" then primary_condition
    else if ["diabetes", "diabetic", "dm"].any (fun t => keywords.contains t) then "diabetes"
    else if ["heart", "cardiac", "coronary", "myocardial"].any (fun t => keywords.contains t)
    then "heart condition"
    else if ["kidney", "renal", "nephropathy"].any (fun t => keywords.contains t)
    then "kidney disease"
    else primary_condition
  { medical_keywords := keywords
    extracted_terms := keywords
    chronicity := chronicity
    severity := severity
    primary_condition := primary_condition
    secondary_conditions := if keywords.length > 1 then (keywords.drop 1).take 2 else [] }

/-! ## `calculate_demographic_risk_multiplier`: the Demographic Risk Calculator -/

/-- Python `' '.join(conditions).lower()`. -/
def joinedOf (conds : List String) : String := lowerS (String.intercalate " " conds)

/-- Age-band adjustment (lines 189–198). -/
def ageBand (age : ℤ) : ℚ :=
  if age ≥ 85 then 0.8
  else if age ≥ 75 then 0.6
  else if age ≥ 65 then 0.4
  else if age ≥ 50 then 0.2
  else if age < 30 then -0.3
  else 0

/-- Gender-specific adjustment (lines 201–210). -/
def genderAdj (age : ℤ) (gender : String) (conds : List String) : ℚ :=
  if gender ≠ "" ∧ (lowerS gender = "female" ∨ lowerS gender = "f") then
    (if (["heart", "cardiac", "coronary", "myocardial"].any
          (fun c => pyIn c (joinedOf conds))) ∧ age ≥ 65 then 0.1 else 0)
  else if gender ≠ "" ∧ (lowerS gender = "male" ∨ lowerS gender = "m") then
    (if age ≥ 45 then 0.1 else 0)
  else 0

/-- Diabetes-age interaction (lines 216–218). -/
def diabAdj (age : ℤ) (conds : List String) : ℚ :=
  if (pyIn "diabetes" (joinedOf conds) ∨ pyIn "diabetic" (joinedOf conds)) ∧ age ≥ 60
  then 0.2 else 0

/-- Heart-condition-age interaction (lines 221–225). -/
def cardiacAdj (age : ℤ) (conds : List String) : ℚ :=
  if ["heart", "cardiac", "coronary"].any (fun t => pyIn t (joinedOf conds)) then
    (if age ≥ 70 then 0.3 else if age ≥ 50 then 0.1 else 0)
  else 0

/-- Kidney-age interaction (lines 228–230). -/
def kidneyAdj (age : ℤ) (conds : List String) : ℚ :=
  if (pyIn "kidney" (joinedOf conds) ∨ pyIn "renal" (joinedOf conds)) ∧ age ≥ 65
  then 0.25 else 0

/-- The accumulated multiplier before clamping (the `+=` chain, as a sum of
its independently-guarded contributions). -/
def rawMult (age : ℤ) (gender : String) (conds : List String) : ℚ :=
  1 + ageBand age + genderAdj age gender conds + diabAdj age conds +
    cardiacAdj age conds + kidneyAdj age conds

/-- The Demographic Risk Calculator: clamp to `[0.3, 3.0]` and round to
2 decimals (line 232). -/
def calculate_demographic_risk_multiplier (age : ℤ) (gender : String)
    (conds : List String) : ℚ :=
  roundTo 2 (min 3 (max 0.3 (rawMult age gender conds)))

/-! ## `analyze_notes_intelligently`: the scoring pipeline

The embedding covers the no-external-model execution path: `app_simple.py`
guards every use of the Ollama collaborator behind `ai_available`/`ai_analysis`,
and with the model absent all `ai_*` contributions are zero and all
`ai_analysis` blocks are skipped, so they are omitted here and
`ai_available = false` throughout. -/

/-- The request model (`AnalysisRequest` in the source). -/
structure AnalysisRequest where
  clinical_notes : String
  visit_type : String
  primary_diagnosis : String
  provider_name : String := "Dr. Provider"
  patient_age : Option ℤ := none
  patient_gender : Option String := none
  patient_medical_history : Option String := some ""
  current_medications : Option String := some ""
  lab_values : Option String := some ""
  patient_history : Option String := none
  current_icd : Option String := none
  deriving DecidableEq, Repr, Inhabited

/-- Python truthiness of an `Optional[str]`. -/
def optTruthyS : Option String → Bool
  | none => false
  | some s => s ≠ ""

/-- Python truthiness of an `Optional[int]`. -/
def optTruthyI : Option ℤ → Bool
  | none => false
  | some a => a ≠ 0

/-- One suggestion (`ICDSuggestion` in the source). -/
structure ICDSuggestion where
  icd_code : String
  description : String
  hcc_code : String
  hcc_description : String
  raf_weight : ℚ
  confidence_score : ℚ
  reasoning : String
  priority_level : String
  priority_explanation : String
  supporting_text : String
  demographic_risk_factor : ℚ
  ai_confidence : ℚ
  annual_revenue_impact : ℤ
  is_hcc_eligible : Bool
  suggested_use_case : String
  alternative_codes : List String
  deriving DecidableEq, Repr, Inhabited

/-- The `demographic_analysis` dictionary (populated only when both age and
gender are truthy). -/
structure DemographicAnalysis where
  age_group : String
  risk_multiplier : ℚ
  age_impact : String
  gender_considerations : String
  deriving DecidableEq, Repr, Inhabited

/-- The `hcc_vs_non_hcc_comparison` dictionary. -/
structure HccComparison where
  hcc_eligible_count : ℕ
  non_hcc_count : ℕ
  potential_missed_revenue : ℤ
  hcc_average_raf : ℚ
  top_revenue_codes : List String
  deriving DecidableEq, Repr, Inhabited

/-- The response model (`HCCAnalysisResponse` in the source). -/
structure HCCAnalysisResponse where
  suggestions : List ICDSuggestion
  extracted_conditions : MedicalSignals
  total_raf_impact : ℚ
  recommendations : List String
  ai_available : Bool
  overall_confidence : String
  priority_level : String
  potential_revenue_impact : String
  demographic_analysis : Option DemographicAnalysis
  action_items : List String
  additional_documentation : List String
  hcc_vs_non_hcc_comparison : HccComparison
  top_revenue_opportunities : List String
  documentation_improvement_tips : List String
  deriving DecidableEq, Repr, Inhabited

/-- Lines 566–568: concatenate diagnosis, notes and (if truthy) history. -/
def fullTextOf (data : AnalysisRequest) : String :=
  let base := data.primary_diagnosis ++ " " ++ data.clinical_notes
  if optTruthyS data.patient_medical_history
  then base ++ " " ++ data.patient_medical_history.getD "" else base

/-- Line 570. -/
def extractedOf (data : AnalysisRequest) : MedicalSignals :=
  extract_medical_keywords (fullTextOf data)

/-- Lines 573–574: extracted keywords plus the lower-cased diagnosis. -/
def searchKeywordsOf (data : AnalysisRequest) : List String :=
  (extractedOf data).medical_keywords ++ [lowerS data.primary_diagnosis]

/-- Line 575. -/
def uniqueKeywordsOf (data : AnalysisRequest) : List String :=
  pySet (searchKeywordsOf data)

/-- Line 576. -/
def mappingsOf (data : AnalysisRequest) : List Row :=
  search_hcc_codes (uniqueKeywordsOf data)

/-- Lines 579–585: the demographic multiplier, `1.0` unless both age and
gender are truthy. -/
def demoMultOf (data : AnalysisRequest) : ℚ :=
  if optTruthyI data.patient_age ∧ optTruthyS data.patient_gender then
    calculate_demographic_risk_multiplier (data.patient_age.getD 0)
      (data.patient_gender.getD "") (searchKeywordsOf data)
  else 1

/-- Lines 587–592. -/
def demoAnalysisOf (data : AnalysisRequest) : Option DemographicAnalysis :=
  if optTruthyI data.patient_age ∧ optTruthyS data.patient_gender then
    let age := data.patient_age.getD 0
    some
      { age_group :=
          if age ≥ 65 then "Senior (65+)"
          else if age ≥ 18 then "Adult (18-64)" else "Youth (<18)"
        risk_multiplier := demoMultOf data
        age_impact :=
          if age ≥ 70 then "High" else if age ≥ 50 then "Moderate" else "Low"
        gender_considerations :=
          data.patient_gender.getD "" ++ " - age " ++ toString age }
  else none

/-- Lines 606–610: fraction of the candidate description's words occurring in
the full text, times 30. -/
def keywordMatchFactor (data : AnalysisRequest) (m : Row) : ℚ :=
  let icdKws := pySplitWs (lowerS m.description)
  let matched := (icdKws.filter (fun w => pyIn w (lowerS (fullTextOf data)))).length
  if icdKws.length > 0 then ((matched : ℚ) / icdKws.length) * 30 else 0

/-- Line 613. -/
def specificity_terms : List String :=
  ["chronic", "acute", "severe", "moderate", "stage", "type", "with",
   "ejection fraction", "bnp", "creatinine"]

/-- Lines 613–615. -/
def clinicalSpecificityFactor (data : AnalysisRequest) : ℚ :=
  min 25 (((specificity_terms.filter
    (fun t => pyIn t (lowerS (fullTextOf data)))).length : ℚ) * 5)

/-- Line 618. -/
def documentation_terms : List String :=
  ["patient", "history", "examination", "assessment", "plan", "monitor",
   "treatment", "medication", "lab", "vital"]

/-- Lines 618–620. -/
def documentationQualityFactor (data : AnalysisRequest) : ℚ :=
  min 20 (((documentation_terms.filter
    (fun t => pyIn t (lowerS (fullTextOf data)))).length : ℚ) * 2)

/-- Lines 623–624. -/
def conditionClarityFactor (data : AnalysisRequest) (m : Row) : ℚ :=
  if pyIn (lowerS data.primary_diagnosis) (lowerS m.description) then 15 else 0

/-- Lines 636–639. -/
def demographicRelevanceFactor (data : AnalysisRequest) : ℚ :=
  if demoMultOf data > 1.2 then 10
  else if demoMultOf data > 1 then 5
  else 0

/-- Line 642: the factor sum (the `ai_enhancement` factor is 0 with the
external model absent). -/
def totalConfidence (data : AnalysisRequest) (m : Row) : ℚ :=
  keywordMatchFactor data m + clinicalSpecificityFactor data +
    documentationQualityFactor data + conditionClarityFactor data m +
    demographicRelevanceFactor data

/-- Lines 643–647: clamp to `[35, 95]`, scale by `min(1.3, multiplier)`,
clamp to `[40, 95]`. -/
def finalConfidence (data : AnalysisRequest) (m : Row) : ℚ :=
  min 95 (max 40 (min 95 (max 35 (totalConfidence data m)) * min 1.3 (demoMultOf data)))

/-- Line 668. -/
def urgent_terms : List String :=
  ["severe", "acute", "emergency", "critical", "advanced",
   "reduced ejection fraction", "stage 4", "stage 5"]

/-- Lines 650–678: the priority score accumulator. -/
def priorityScore (data : AnalysisRequest) (m : Row) : ℤ :=
  (if m.raf_value > 0.4 then 35 else if m.raf_value > 0.2 then 20 else 10) +
  (if optTruthyI data.patient_age ∧ data.patient_age.getD 0 ≥ 65 then 15 else 0) +
  (if demoMultOf data > 1.5 then 10 else 0) +
  (if urgent_terms.any (fun t => pyIn t (lowerS (fullTextOf data))) then 25 else 0)

/-- Lines 681–689: priority tier and its templated explanation. -/
def priorityLevelOf (data : AnalysisRequest) (m : Row) : String × String :=
  if priorityScore data m > 80 then
    ("HIGH", "Critical: High RAF (" ++ fmtQ m.raf_value ++ "), age " ++
      fmtOptInt data.patient_age ++ ", significant clinical factors")
  else if priorityScore data m > 50 then
    ("MEDIUM", "Important: Moderate RAF (" ++ fmtQ m.raf_value ++
      "), demographic risk factor " ++ fmtQ (demoMultOf data))
  else
    ("LOW", "Review: Lower RAF (" ++ fmtQ m.raf_value ++ "), verify coding accuracy")

/-- Lines 692–711: the reasoning sentence. -/
def reasoningOf (data : AnalysisRequest) (m : Row) : String :=
  let part1 :=
    if finalConfidence data m > 80 then "Strong clinical correlation with " ++ m.description
    else if finalConfidence data m > 60 then "Good match for " ++ m.description
    else "Potential match requires clinical review"
  let parts := [part1] ++
    (if demoMultOf data > 1.2 then
      ["Demographic risk factors increase relevance (factor: " ++
        fmtQ (demoMultOf data) ++ ")"]
    else [])
  String.intercalate ". " parts ++ ". " ++ (priorityLevelOf data m).2 ++ "."

/-- Lines 714–724: first stripped sentence of the full text containing one of
the first three description words. -/
def supportingTextOf (data : AnalysisRequest) (m : Row) : String :=
  let ft := fullTextOf data
  let icdKws := pySplitWs (lowerS m.description)
  (icdKws.take 3).foldl (fun acc kw =>
    if acc ≠ "" then acc
    else if pyIn kw (lowerS ft) then
      match (splitS '.' ft).find? (fun sent => pyIn kw (lowerS sent)) with
      | some sent => pyStrip sent
      | none => acc
    else acc) ""

/-- Line 730: HCC eligibility of a candidate row. -/
def isEligible (m : Row) : Bool :=
  m.hcc_category ≠ "No HCC" && decide (m.raf_value > 0)

/-- Line 731: annual revenue, truncated dollars-per-RAF when eligible. -/
def annualRevenueOf (data : AnalysisRequest) (m : Row) : ℤ :=
  if isEligible m then pyInt (m.raf_value * demoMultOf data * 17000) else 0

/-- Lines 734–753: the use-case decision table. -/
def useCaseOf (m : Row) : String :=
  let d := lowerS m.description
  if pyIn "diabetes" d then
    (if pyIn "kidney" d then "Use when patient has diabetes WITH kidney involvement/nephropathy"
     else if pyIn "neuropathy" d then "Use when patient has diabetes WITH nerve damage/neuropathy"
     else if pyIn "without complications" d then
       "WARNING: AVOID - Use more specific codes if complications exist"
     else "Use for diabetes with documented complications")
  else if pyIn "heart" d then
    (if pyIn "failure" d then "Use when patient has documented heart failure (higher RAF value)"
     else "Use for coronary artery disease without heart failure")
  else if pyIn "kidney" d then
    (if pyIn "stage" d then "Use when CKD stage is documented (higher stages = higher RAF)"
     else "Use for general kidney disorders")
  else ""

/-- Lines 759–761: an alternative candidate must carry an HCC category label
and share (as a substring) one of the first three description words. -/
def altMatches (m m2 : Row) : Bool :=
  m2.hcc_category ≠ "No HCC" &&
    ((pySplitWs (lowerS m.description)).take 3).any (fun w => pyIn w (lowerS m2.description))

/-- Line 762: formatting of one alternative. -/
def fmtAlt (m2 : Row) : String :=
  let dollars := commaFmt (pyInt (m2.raf_value * 17000))
  m2.icd_code ++ " (" ++ m2.hcc_category ++ ", +$" ++ dollars ++ ")"

/-- Lines 756–764: up to two alternatives, only for non-eligible candidates. -/
def alternativesOf (data : AnalysisRequest) (m : Row) : List String :=
  if isEligible m then []
  else (((mappingsOf data).filter (altMatches m)).take 2).map fmtAlt

/-- Lines 766–784: assemble one suggestion from a candidate row. -/
def mkSuggestion (data : AnalysisRequest) (m : Row) : ICDSuggestion :=
  { icd_code := m.icd_code
    description := m.description
    hcc_code := m.hcc_category
    hcc_description := m.hcc_category
    raf_weight := roundTo 3 (m.raf_value * demoMultOf data)
    confidence_score := roundTo 1 (finalConfidence data m)
    reasoning := reasoningOf data m
    priority_level := (priorityLevelOf data m).1
    priority_explanation := (priorityLevelOf data m).2
    supporting_text :=
      (if supportingTextOf data m ≠ "" then supportingTextOf data m
       else "Clinical documentation supports this condition")
    demographic_risk_factor := demoMultOf data
    ai_confidence := 0
    annual_revenue_impact := annualRevenueOf data m
    is_hcc_eligible := isEligible m
    suggested_use_case := useCaseOf m
    alternative_codes := alternativesOf data m }

/-- Line 790: the priority-tier weight (`dict.get` with default 1). -/
def priority_weight (s : String) : ℚ :=
  if s = "HIGH" then 3 else if s = "MEDIUM" then 2 else if s = "LOW" then 1 else 1

/-- Lines 789–791: the sort key. -/
def suggestionKey (s : ICDSuggestion) : ℚ × ℚ × ℚ :=
  (priority_weight s.priority_level, s.confidence_score, s.raf_weight)

/-- Python `sort(key=sort_key, reverse=True)` comparison. -/
def sugGt (a b : ICDSuggestion) : Bool :=
  decide (tupLt (suggestionKey b) (suggestionKey a))

/-- Lines 595–793: build a suggestion per candidate (at most 10 processed) and
sort descending by `(priority weight, confidence, adjusted RAF)`. -/
def sortedSuggestionsOf (data : AnalysisRequest) : List ICDSuggestion :=
  sortG sugGt (((mappingsOf data).take 10).map (mkSuggestion data))

/-- Python `sorted(…, key=revenue, reverse=True)` comparison. -/
def revGt (a b : ICDSuggestion) : Bool :=
  decide (b.annual_revenue_impact < a.annual_revenue_impact)

/-- Lines 796–805. -/
def hccComparisonOf (data : AnalysisRequest) : HccComparison :=
  let sgs := sortedSuggestionsOf data
  let hcc := sgs.filter (·.is_hcc_eligible)
  let nonHcc := sgs.filter (fun s => !s.is_hcc_eligible)
  { hcc_eligible_count := hcc.length
    non_hcc_count := nonHcc.length
    potential_missed_revenue := (hcc.map (·.annual_revenue_impact)).sum
    hcc_average_raf :=
      if hcc ≠ [] then roundTo 3 ((hcc.map (·.raf_weight)).sum / hcc.length) else 0
    top_revenue_codes := ((sortG revGt hcc).take 3).map
      (fun s => s.icd_code ++ ": +$" ++ commaFmt s.annual_revenue_impact) }

/-- Lines 808–813. -/
def topRevenueOpportunitiesOf (data : AnalysisRequest) : List String :=
  (((sortG revGt (sortedSuggestionsOf data)).take 5).filter (·.is_hcc_eligible)).map
    (fun s => s.icd_code ++ " (" ++ s.hcc_code ++ "): +$" ++
      commaFmt s.annual_revenue_impact ++ "/year - " ++ s.suggested_use_case)

/-- Line 823 and 839 and 862: Medicare-age condition. -/
def medicareAge (data : AnalysisRequest) : Prop :=
  optTruthyI data.patient_age ∧ data.patient_age.getD 0 ≥ 65

instance (data : AnalysisRequest) : Decidable (medicareAge data) := by
  unfold medicareAge; infer_instance

/-- Lines 816–826. -/
def documentationTipsOf (data : AnalysisRequest) : List String :=
  ["Document SPECIFIC complications: Instead of \x27diabetes\x27, use \x27diabetes with kidney disease\x27",
   "Include SEVERITY levels: Stage of kidney disease, ejection fraction for heart failure",
   "Note CHRONIC vs ACUTE: Chronic conditions often have higher HCC values",
   "Capture COMORBIDITIES: Multiple conditions can increase overall RAF score"] ++
  (if medicareAge data then
    ["MEDICARE FOCUS: Ensure annual recapture of all chronic conditions for this Medicare patient"]
  else [])

/-- Lines 829–843: the recommendation list (no external-model narrative). -/
def recommendationsOf (data : AnalysisRequest) : List String :=
  (match sortedSuggestionsOf data with
   | [] => []
   | top :: _ =>
     if top.is_hcc_eligible then
       ["RECOMMENDED ICD-10: " ++ top.icd_code ++ " (" ++ top.hcc_code ++
         ") - Revenue: +$" ++ commaFmt top.annual_revenue_impact ++ "/year"]
     else
       ["CURRENT SELECTION: " ++ top.icd_code ++ " (No HCC) - Consider HCC-eligible alternatives"] ++
       (if top.alternative_codes ≠ [] then
         ["BETTER OPTIONS: " ++ String.intercalate ", " (top.alternative_codes.take 2)]
       else [])) ++
  (if medicareAge data then
    ["[MEDICARE] MEDICARE PATIENT: Ensure annual HCC recapture for continued risk adjustment"]
  else []) ++
  (if demoMultOf data > 1.3 then
    ["[WARNING] HIGH DEMOGRAPHIC RISK: Age/gender profile increases clinical significance (factor: " ++
      fmtQ (demoMultOf data) ++ ")"]
  else [])

/-- Lines 854–864. -/
def actionItemsOf (data : AnalysisRequest) : List String :=
  ["Review suggested ICD-10 codes for HCC eligibility before final selection",
   "Compare revenue impact of different ICD-10 code options",
   "Verify clinical documentation supports the most specific ICD-10 code available",
   "Review clinical documentation for MEAT criteria (Monitor, Evaluate, Assess, Treat)",
   "Consider demographic risk factors when selecting between similar ICD-10 codes"] ++
  (if medicareAge data then
    ["Prioritize HCC-eligible codes for Medicare risk adjustment",
     "Ensure comprehensive geriatric assessment for Medicare risk adjustment"]
  else [])

/-- Line 867. -/
def totalRafOf (data : AnalysisRequest) : ℚ :=
  if sortedSuggestionsOf data ≠ [] then
    (((sortedSuggestionsOf data).take 3).map (·.raf_weight)).sum
  else 0

/-- Lines 871–892: aggregate confidence label. -/
def overallConfidenceOf (data : AnalysisRequest) : String :=
  let sgs := sortedSuggestionsOf data
  if sgs ≠ [] then
    (if (sgs.map (·.confidence_score)).sum / sgs.length > 80 then "HIGH"
     else if (sgs.map (·.confidence_score)).sum / sgs.length > 60 then "MEDIUM"
     else "LOW")
  else "LOW"

/-- Lines 880–892: aggregate priority label. -/
def overallPriorityOf (data : AnalysisRequest) : String :=
  let sgs := sortedSuggestionsOf data
  if sgs ≠ [] then
    (if sgs.any (fun s => s.priority_level == "HIGH") then "HIGH"
     else if sgs.any (fun s => s.priority_level == "MEDIUM") then "MEDIUM"
     else "LOW")
  else "LOW"

/-- Lines 523–910: the whole request handler on the rule-based path. -/
def analyze_notes_intelligently (data : AnalysisRequest) : HCCAnalysisResponse :=
  { suggestions := (sortedSuggestionsOf data).take 10
    extracted_conditions := extractedOf data
    total_raf_impact := roundTo 3 (totalRafOf data)
    recommendations := recommendationsOf data
    ai_available := false
    overall_confidence := overallConfidenceOf data
    priority_level := overallPriorityOf data
    potential_revenue_impact := "$" ++ commaFmt (pyInt (totalRafOf data * 17000))
    demographic_analysis := demoAnalysisOf data
    action_items := actionItemsOf data
    additional_documentation :=
      ["Document specific complications and comorbidities",
       "Include severity indicators and staging",
       "Note chronic vs acute presentation"]
    hcc_vs_non_hcc_comparison := hccComparisonOf data
    top_revenue_opportunities := topRevenueOpportunitiesOf data
    documentation_improvement_tips := documentationTipsOf data }

/-! ## Concrete scenario requests used by witnesses and counterexamples

Each is chosen so that its keyword set and candidate list are independent of
CPython set-iteration order and of SQL tie order (checked row by row against
the seeded table). -/

/-- Diagnosis `renal`, notes `heart`, age 65, gender `x`: the extractor finds
keywords `heart` and `renal`, the multiplier is `1.75`, and the search returns
8 eligible rows. -/
def reqHR : AnalysisRequest :=
  { clinical_notes := "heart", visit_type := "Follow-up Visit",
    primary_diagnosis := "renal", patient_age := some 65, patient_gender := some "x" }

/-- A copy of `reqHR` differing only in fields outside the scoring pipeline. -/
def reqHR2 : AnalysisRequest :=
  { reqHR with
    visit_type := "Initial Visit"
    provider_name := "Dr. B"
    current_medications := some "aspirin" }

/-- Diagnosis and notes `mild`: keywords `mi` and `mild`, candidates
`I25.9`, `I21.01`, `E11.65` and the zero-RAF `N18.2`. -/
def reqMild : AnalysisRequest :=
  { clinical_notes := "mild", visit_type := "Follow-up Visit",
    primary_diagnosis := "mild" }

/-- Diagnosis and notes `stable`: the single keyword `stable` matches no row,
so the candidate search is empty. -/
def reqStable : AnalysisRequest :=
  { clinical_notes := "stable", visit_type := "Follow-up Visit",
    primary_diagnosis := "stable" }

/-- First emitted suggestion of the `reqHR` analysis. -/
def headSuggestionHR : ICDSuggestion :=
  ((analyze_notes_intelligently reqHR).suggestions).getD 0 default

/-- First emitted suggestion of the `reqMild` analysis. -/
def headSuggestionMild : ICDSuggestion :=
  ((analyze_notes_intelligently reqMild).suggestions).getD 0 default

/-- Fourth emitted suggestion of the `reqMild` analysis (the non-eligible
`N18.2` one, which carries alternatives). -/
def altSuggestionMild : ICDSuggestion :=
  ((analyze_notes_intelligently reqMild).suggestions).getD 3 default

/-- Cardiac-keyword condition of the monotonicity property, exactly the
substring test the calculator applies to the joined keyword list. -/
def hasCardiacKeyword (conds : List String) : Prop :=
  (["heart", "cardiac", "coronary", "myocardial"].any
    (fun t => pyIn t (joinedOf conds))) = true

instance (conds : List String) : Decidable (hasCardiacKeyword conds) := by
  unfold hasCardiacKeyword; infer_instance

/-! ## Helper lemmas -/

theorem floor_le_pythonRound (q : ℚ) : ⌊q⌋ ≤ pythonRound q := by
  unfold pythonRound; split_ifs <;> omega

theorem pythonRound_le_ceil (q : ℚ) : pythonRound q ≤ ⌈q⌉ := by
  have hfc : ⌊q⌋ ≤ ⌈q⌉ := Int.floor_le_ceil q
  have hstep : 1/2 ≤ q - ⌊q⌋ → ⌊q⌋ + 1 ≤ ⌈q⌉ := by
    intro h
    have : (⌊q⌋ : ℚ) < q := by linarith
    exact Int.lt_ceil.mpr this
  unfold pythonRound
  split_ifs with h1 h2 h3
  · exact hfc
  · exact hstep (le_of_lt h2)
  · exact hfc
  · exact hstep (by linarith)

theorem pythonRound_mono {x y : ℚ} (h : x ≤ y) : pythonRound x ≤ pythonRound y := by
  have hf : ⌊x⌋ ≤ ⌊y⌋ := Int.floor_le_floor h
  by_cases hlt : ⌊x⌋ < ⌊y⌋
  · have h1 : pythonRound x ≤ ⌊x⌋ + 1 := by unfold pythonRound; split_ifs <;> omega
    have h2 := floor_le_pythonRound y
    omega
  · have heq : ⌊x⌋ = ⌊y⌋ := le_antisymm hf (not_lt.mp hlt)
    have hr : x - (⌊x⌋ : ℚ) ≤ y - (⌊y⌋ : ℚ) := by rw [heq]; linarith
    unfold pythonRound
    rw [heq] at hr ⊢
    split_ifs <;> first | omega | linarith

theorem roundTo_mono (n : ℕ) {x y : ℚ} (h : x ≤ y) : roundTo n x ≤ roundTo n y := by
  have h10 : (0:ℚ) < 10 ^ n := by positivity
  unfold roundTo
  have := pythonRound_mono (mul_le_mul_of_nonneg_right h (le_of_lt h10))
  exact (div_le_div_iff_of_pos_right h10).mpr (by exact_mod_cast this)

theorem roundTo_bounds (n : ℕ) (A B : ℤ) (x : ℚ)
    (h1 : (A : ℚ) / 10 ^ n ≤ x) (h2 : x ≤ (B : ℚ) / 10 ^ n) :
    (A : ℚ) / 10 ^ n ≤ roundTo n x ∧ roundTo n x ≤ (B : ℚ) / 10 ^ n := by
  have h10 : (0:ℚ) < 10 ^ n := by positivity
  have hA : (A : ℚ) ≤ x * 10 ^ n := by rwa [div_le_iff₀ h10] at h1
  have hB : x * 10 ^ n ≤ (B : ℚ) := by rwa [le_div_iff₀ h10] at h2
  have l1 : A ≤ ⌊x * 10 ^ n⌋ := Int.le_floor.mpr hA
  have l2 : ⌈x * 10 ^ n⌉ ≤ B := Int.ceil_le.mpr hB
  have l3 := floor_le_pythonRound (x * 10 ^ n)
  have l4 := pythonRound_le_ceil (x * 10 ^ n)
  constructor
  · exact (div_le_div_iff_of_pos_right h10).mpr (by exact_mod_cast (l1.trans l3 : A ≤ _))
  · exact (div_le_div_iff_of_pos_right h10).mpr (by exact_mod_cast (l4.trans l2 : _ ≤ B))

theorem mem_insG {gt : α → α → Bool} {x a : α} {l : List α} :
    a ∈ insG gt x l ↔ a = x ∨ a ∈ l := by
  induction l with
  | nil => simp [insG]
  | cons y ys ih =>
    unfold insG
    split
    · simp [List.mem_cons]
    · simp only [List.mem_cons, ih]
      tauto

theorem length_insG {gt : α → α → Bool} (x : α) (l : List α) :
    (insG gt x l).length = l.length + 1 := by
  induction l with
  | nil => rfl
  | cons y ys ih =>
    unfold insG
    split
    · simp
    · simp [ih]

theorem mem_foldl_insG {gt : α → α → Bool} {a : α} (l acc : List α) :
    a ∈ l.foldl (fun acc x => insG gt x acc) acc ↔ a ∈ acc ∨ a ∈ l := by
  induction l generalizing acc with
  | nil => simp
  | cons x xs ih =>
    simp only [List.foldl_cons, ih, mem_insG, List.mem_cons]
    tauto

theorem mem_sortG {gt : α → α → Bool} {a : α} {l : List α} :
    a ∈ sortG gt l ↔ a ∈ l := by
  unfold sortG
  rw [mem_foldl_insG]
  simp

theorem pairwise_insG {gt : α → α → Bool}
    (hasym : ∀ a b, gt a b = true → gt b a = false)
    (htrans : ∀ a b c, gt a b = true → gt b c = true → gt a c = true)
    (x : α) {l : List α} (hl : l.Pairwise (fun a b => gt b a = false)) :
    (insG gt x l).Pairwise (fun a b => gt b a = false) := by
  induction l with
  | nil => simp [insG]
  | cons y ys ih =>
    rcases List.pairwise_cons.mp hl with ⟨hy, hys⟩
    unfold insG
    split
    · rename_i hgt
      refine List.pairwise_cons.mpr ⟨?_, hl⟩
      intro b hb
      rcases List.mem_cons.mp hb with rfl | hbys
      · exact hasym _ _ hgt
      · by_contra hbx
        have hbx' : gt b x = true := by
          cases h : gt b x
          · exact absurd h hbx
          · rfl
        have := htrans _ _ _ hbx' hgt
        rw [hy b hbys] at this
        exact Bool.false_ne_true this
    · rename_i hgt
      refine List.pairwise_cons.mpr ⟨?_, ih hys⟩
      intro b hb
      rcases mem_insG.mp hb with rfl | hbys
      · cases h : gt b y
        · rfl
        · exact absurd h hgt
      · exact hy b hbys

theorem pairwise_sortG {gt : α → α → Bool}
    (hasym : ∀ a b, gt a b = true → gt b a = false)
    (htrans : ∀ a b c, gt a b = true → gt b c = true → gt a c = true)
    (l : List α) : (sortG gt l).Pairwise (fun a b => gt b a = false) := by
  unfold sortG
  have : ∀ acc : List α, acc.Pairwise (fun a b => gt b a = false) →
      (l.foldl (fun acc x => insG gt x acc) acc).Pairwise (fun a b => gt b a = false) := by
    induction l with
    | nil => intro acc h; exact h
    | cons x xs ih =>
      intro acc h
      exact ih _ (pairwise_insG hasym htrans x h)
  exact this [] List.Pairwise.nil

theorem tupLt_asymm {a b : ℚ × ℚ × ℚ} (h : tupLt a b) : ¬ tupLt b a := by
  unfold tupLt at *
  rcases h with h | ⟨h1, h | ⟨h2, h3⟩⟩ <;> rintro (g | ⟨g1, g | ⟨g2, g3⟩⟩) <;> linarith

theorem tupLt_trans {a b c : ℚ × ℚ × ℚ} (h1 : tupLt a b) (h2 : tupLt b c) : tupLt a c := by
  unfold tupLt at *
  rcases h1 with h | ⟨e1, h | ⟨e2, h⟩⟩ <;> rcases h2 with g | ⟨f1, g | ⟨f2, g⟩⟩
  · exact Or.inl (by linarith)
  · exact Or.inl (by linarith)
  · exact Or.inl (by linarith)
  · exact Or.inl (by linarith)
  · exact Or.inr ⟨by linarith, Or.inl (by linarith)⟩
  · exact Or.inr ⟨by linarith, Or.inl (by linarith)⟩
  · exact Or.inl (by linarith)
  · exact Or.inr ⟨by linarith, Or.inl (by linarith)⟩
  · exact Or.inr ⟨by linarith, Or.inr ⟨by linarith, by linarith⟩⟩

theorem mem_suggestions {data : AnalysisRequest} {s : ICDSuggestion}
    (hs : s ∈ (analyze_notes_intelligently data).suggestions) :
    ∃ m ∈ mappingsOf data, s = mkSuggestion data m := by
  have h1 : s ∈ sortedSuggestionsOf data :=
    List.mem_of_mem_take (l := sortedSuggestionsOf data) hs
  have h2 : s ∈ ((mappingsOf data).take 10).map (mkSuggestion data) := mem_sortG.mp h1
  rcases List.mem_map.mp h2 with ⟨m, hm, rfl⟩
  exact ⟨m, List.mem_of_mem_take hm, rfl⟩

/-! ## Claim theorems -/

/-- Claim C1: the claim says `extract_medical_keywords` sets
`primary_condition` to the first matched privileged category and returns
`"unknown"` only when no synonym matches.  In fact the source reassigns
`primary_condition = 'unknown'` unconditionally after the scan (line 484), so
the extractor returns `"unknown"` for **every** input; the second conjunct
shows the scan loop itself does compute `some "heart"` on the text
`heart failure`, which the function then discards. -/
theorem extract_primary_condition_always_unknown :
    (∀ text : String, (extract_medical_keywords text).primary_condition = "unknown") ∧
    (scanTerms (lowerS "heart failure")).2 = some "heart" := by
  constructor
  · intro text
    rfl
  · decide

/-- Claim C10: the extractor's `chronicity` is always `"chronic"` or
`"acute"`, and its `severity` is always `"severe"`, `"moderate"` or `"mild"`;
the `"unknown"` enum value is never produced for either field. -/
theorem extract_chronicity_severity_enums (text : String) :
    ((extract_medical_keywords text).chronicity = "chronic" ∨
     (extract_medical_keywords text).chronicity = "acute") ∧
    ((extract_medical_keywords text).severity = "severe" ∨
     (extract_medical_keywords text).severity = "moderate" ∨
     (extract_medical_keywords text).severity = "mild") := by
  constructor
  · by_cases h : (["chronic", "long-term", "ongoing"].any
        (fun t => pyIn t (lowerS text))) = true
    · left
      simp only [extract_medical_keywords, h]
      rfl
    · right
      simp only [extract_medical_keywords]
      rw [if_neg h]
  · by_cases h1 : (["severe", "critical", "advanced"].any
        (fun t => pyIn t (lowerS text))) = true
    · left
      simp only [extract_medical_keywords, h1]
      rfl
    · by_cases h2 : (["moderate", "stable"].any (fun t => pyIn t (lowerS text))) = true
      · right; left
        simp only [extract_medical_keywords]
        rw [if_neg h1, if_pos h2]
      · right; right
        simp only [extract_medical_keywords]
        rw [if_neg h1, if_neg h2]

/-- Claim C5: for every age, gender and keyword list the demographic risk
multiplier lies in `[0.3, 3.0]` and is an exact 2-decimal value, and whenever
age or gender is absent from the request the multiplier applied to scoring is
exactly `1.0`. -/
theorem demographic_multiplier_bounds_and_absent :
    (∀ (age : ℤ) (gender : String) (conds : List String),
      3/10 ≤ calculate_demographic_risk_multiplier age gender conds ∧
      calculate_demographic_risk_multiplier age gender conds ≤ 3 ∧
      ∃ k : ℤ, calculate_demographic_risk_multiplier age gender conds = (k : ℚ) / 100) ∧
    (∀ data : AnalysisRequest,
      data.patient_age = none ∨ data.patient_gender = none → demoMultOf data = 1) := by
  constructor
  · intro age gender conds
    set x := min 3 (max 0.3 (rawMult age gender conds)) with hx
    have hlo : (3 : ℚ)/10 ≤ x := by
      apply le_min (by norm_num)
      exact le_trans (by norm_num) (le_max_left _ _)
    have hhi : x ≤ 3 := min_le_left _ _
    have hb := roundTo_bounds 2 30 300 x (by push_cast; norm_num; linarith)
      (by push_cast; norm_num; linarith)
    refine ⟨?_, ?_, ⟨pythonRound (x * 10 ^ 2), rfl⟩⟩
    · have := hb.1
      unfold calculate_demographic_risk_multiplier
      rw [← hx]
      push_cast at this
      norm_num at this ⊢
      linarith
    · have := hb.2
      unfold calculate_demographic_risk_multiplier
      rw [← hx]
      push_cast at this
      norm_num at this ⊢
      linarith
  · intro data h
    unfold demoMultOf
    rcases h with h | h <;> simp [h, optTruthyI, optTruthyS]

/-- Witness for C5 at concrete inputs: the absent-gender request `reqStable`
gets multiplier exactly 1, and the bounds hold at age 65. -/
theorem demographic_multiplier_bounds_and_absent_witness :
    demoMultOf reqStable = 1 ∧
    3/10 ≤ calculate_demographic_risk_multiplier 65 "x" ["heart"] ∧
    calculate_demographic_risk_multiplier 65 "x" ["heart"] = 3/2 :=
  ⟨demographic_multiplier_bounds_and_absent.2 reqStable (Or.inl rfl),
   (demographic_multiplier_bounds_and_absent.1 65 "x" ["heart"]).1,
   by decide⟩

/-- Claim C6: for every gender and keyword list containing a cardiac keyword,
raising the age from 60 to 86 never decreases the demographic multiplier. -/
theorem multiplier_age_monotone_60_86 (gender : String) (conds : List String)
    (_hcard : hasCardiacKeyword conds) :
    calculate_demographic_risk_multiplier 60 gender conds ≤
    calculate_demographic_risk_multiplier 86 gender conds := by
  unfold calculate_demographic_risk_multiplier
  apply roundTo_mono
  apply min_le_min le_rfl
  apply max_le_max le_rfl
  unfold rawMult
  have h1 : ageBand 60 ≤ ageBand 86 := by norm_num [ageBand]
  have h2 : genderAdj 60 gender conds ≤ genderAdj 86 gender conds := by
    by_cases hF : gender ≠ "" ∧ (lowerS gender = "female" ∨ lowerS gender = "f")
    · by_cases hH : (["heart", "cardiac", "coronary", "myocardial"].any
          (fun c => pyIn c (joinedOf conds))) = true
      · norm_num [genderAdj, hF, hH]
      · norm_num [genderAdj, hF, hH]
    · by_cases hM : gender ≠ "" ∧ (lowerS gender = "male" ∨ lowerS gender = "m")
      · have hFf : ¬(lowerS gender = "female" ∨ lowerS gender = "f") :=
          fun h => hF ⟨hM.1, h⟩
        norm_num [genderAdj, hM, hFf]
      · norm_num [genderAdj, hF, hM]
  have h3 : diabAdj 60 conds ≤ diabAdj 86 conds := by
    by_cases hD : pyIn "diabetes" (joinedOf conds) ∨ pyIn "diabetic" (joinedOf conds)
    · norm_num [diabAdj, hD]
    · norm_num [diabAdj, hD]
  have h4 : cardiacAdj 60 conds ≤ cardiacAdj 86 conds := by
    by_cases hC : (["heart", "cardiac", "coronary"].any
        (fun t => pyIn t (joinedOf conds))) = true
    · norm_num [cardiacAdj, hC]
    · norm_num [cardiacAdj, hC]
  have h5 : kidneyAdj 60 conds ≤ kidneyAdj 86 conds := by
    by_cases hK : pyIn "kidney" (joinedOf conds) ∨ pyIn "renal" (joinedOf conds)
    · norm_num [kidneyAdj, hK]
    · norm_num [kidneyAdj, hK]
  linarith

/-- Witness for C6: a female patient with the cardiac keyword `heart` has
multiplier 1.3 at age 60 and 2.2 at age 86. -/
theorem multiplier_age_monotone_60_86_witness :
    calculate_demographic_risk_multiplier 60 "female" ["heart"] ≤
      calculate_demographic_risk_multiplier 86 "female" ["heart"] ∧
    calculate_demographic_risk_multiplier 60 "female" ["heart"] = 13/10 ∧
    calculate_demographic_risk_multiplier 86 "female" ["heart"] = 11/5 :=
  ⟨multiplier_age_monotone_60_86 "female" ["heart"] (by decide), by decide, by decide⟩

/-- Claim C4: every emitted suggestion's confidence score lies in `[40, 95]`:
the factor sum is clamped to `[35, 95]`, scaled by `min(1.3, multiplier)`, and
clamped to `[40, 95]` (then rounded to one decimal, which stays in range). -/
theorem confidence_bounds (data : AnalysisRequest) (s : ICDSuggestion)
    (hs : s ∈ (analyze_notes_intelligently data).suggestions) :
    40 ≤ s.confidence_score ∧ s.confidence_score ≤ 95 := by
  rcases mem_suggestions hs with ⟨m, _, rfl⟩
  show 40 ≤ roundTo 1 (finalConfidence data m) ∧ roundTo 1 (finalConfidence data m) ≤ 95
  have hlo : (40 : ℚ) ≤ finalConfidence data m := by
    unfold finalConfidence
    exact le_min (by norm_num) (le_max_left _ _)
  have hhi : finalConfidence data m ≤ 95 := by
    unfold finalConfidence
    exact min_le_left _ _
  have hb := roundTo_bounds 1 400 950 (finalConfidence data m)
    (by push_cast; norm_num; linarith) (by push_cast; norm_num; linarith)
  constructor
  · have := hb.1; push_cast at this; norm_num at this; linarith
  · have := hb.2; push_cast at this; norm_num at this; linarith

/-- Witness for C4: the first suggestion of the `reqHR` analysis is within
bounds (its confidence evaluates to 45.5). -/
theorem confidence_bounds_witness :
    (40 ≤ headSuggestionHR.confidence_score ∧ headSuggestionHR.confidence_score ≤ 95) ∧
    headSuggestionHR.confidence_score = 91/2 :=
  ⟨confidence_bounds reqHR headSuggestionHR (by decide), by decide⟩

/-- Claim C2 counterexample: in the `reqHR` analysis the emitted `Z94.0`
suggestion is HCC-eligible with `annual_revenue_impact = 15618`, but
`round(adjusted_raf × 17000) = round(0.525 × 1.75 × 17000) = 15619`: the
source truncates with `int(...)` instead of rounding. -/
theorem revenue_round_counterexample :
    ∃ s ∈ (analyze_notes_intelligently reqHR).suggestions,
      ∃ m ∈ mappingsOf reqHR, s.icd_code = m.icd_code ∧ m.icd_code = "Z94.0" ∧
        s.is_hcc_eligible = true ∧ s.annual_revenue_impact = 15618 ∧
        pythonRound (m.raf_value * demoMultOf reqHR * 17000) = 15619 := by
  decide

/-- Claim C2 as amended: every emitted suggestion's annual revenue equals the
**truncation** `int(adjusted_raf × 17000)` when the candidate is HCC-eligible
and 0 otherwise. -/
theorem revenue_truncation (data : AnalysisRequest) (s : ICDSuggestion)
    (hs : s ∈ (analyze_notes_intelligently data).suggestions) :
    ∃ m ∈ mappingsOf data,
      s.icd_code = m.icd_code ∧ s.is_hcc_eligible = isEligible m ∧
      s.annual_revenue_impact =
        (if isEligible m then pyInt (m.raf_value * demoMultOf data * 17000) else 0) := by
  rcases mem_suggestions hs with ⟨m, hm, rfl⟩
  exact ⟨m, hm, rfl, rfl, rfl⟩

/-- Witness for C2's amended theorem at the first `reqMild` suggestion. -/
theorem revenue_truncation_witness :
    ∃ m ∈ mappingsOf reqMild,
      headSuggestionMild.icd_code = m.icd_code ∧
      headSuggestionMild.is_hcc_eligible = isEligible m ∧
      headSuggestionMild.annual_revenue_impact =
        (if isEligible m then pyInt (m.raf_value * demoMultOf reqMild * 17000) else 0) :=
  revenue_truncation reqMild headSuggestionMild (by decide)

/-- Claim C8 counterexample: in the `reqMild` analysis the non-eligible
`N18.2` suggestion carries the alternative entry `"N18.2 (HCC 139, +$0)"`,
which no HCC-eligible candidate (non-null category **and** positive baseline
RAF) formats to — it comes from `N18.2` itself, whose category label is
`HCC 139` but whose baseline RAF is 0.  The source only checks
`hcc_category != "No HCC"` and never `raf_value > 0`. -/
theorem alternatives_eligibility_counterexample :
    ∃ s ∈ (analyze_notes_intelligently reqMild).suggestions,
      s.is_hcc_eligible = false ∧
      "N18.2 (HCC 139, +$0)" ∈ s.alternative_codes ∧
      ∀ m ∈ sample_data, isEligible m = true → fmtAlt m ≠ "N18.2 (HCC 139, +$0)" := by
  decide

/-- Claim C8 as amended: every emitted suggestion has at most two
alternatives; eligible suggestions have none; and each alternative entry is
the formatting of a candidate whose HCC category label is not `"No HCC"`
(its baseline RAF may be zero) sharing one of the suggestion's first three
description words as a substring. -/
theorem alternatives_shape (data : AnalysisRequest) (s : ICDSuggestion)
    (hs : s ∈ (analyze_notes_intelligently data).suggestions) :
    s.alternative_codes.length ≤ 2 ∧
    (s.is_hcc_eligible = true → s.alternative_codes = []) ∧
    ∃ m ∈ mappingsOf data, s = mkSuggestion data m ∧
      ∀ e ∈ s.alternative_codes, ∃ m2 ∈ mappingsOf data,
        m2.hcc_category ≠ "No HCC" ∧ altMatches m m2 = true ∧ e = fmtAlt m2 := by
  rcases mem_suggestions hs with ⟨m, hm, rfl⟩
  have halt : (mkSuggestion data m).alternative_codes = alternativesOf data m := rfl
  have helig : (mkSuggestion data m).is_hcc_eligible = isEligible m := rfl
  refine ⟨?_, ?_, m, hm, rfl, ?_⟩
  · rw [halt]
    unfold alternativesOf
    split
    · simp
    · rw [List.length_map]
      exact le_trans (List.length_take_le _ _) le_rfl
  · intro he
    rw [helig] at he
    rw [halt]
    unfold alternativesOf
    rw [if_pos he]
  · intro e he
    rw [halt] at he
    unfold alternativesOf at he
    split at he
    · simp at he
    · rcases List.mem_map.mp he with ⟨m2, hm2, rfl⟩
      have hm2' : m2 ∈ (mappingsOf data).filter (altMatches m) :=
        List.mem_of_mem_take hm2
      have hmem := List.mem_filter.mp hm2'
      refine ⟨m2, hmem.1, ?_, hmem.2, rfl⟩
      have hb := hmem.2
      unfold altMatches at hb
      rw [Bool.and_eq_true] at hb
      exact of_decide_eq_true hb.1

/-- Witness for C8's amended theorem at the fourth `reqMild` suggestion (the
non-eligible `N18.2` one, which carries two alternatives). -/
theorem alternatives_shape_witness :
    altSuggestionMild.alternative_codes.length ≤ 2 ∧
    (altSuggestionMild.is_hcc_eligible = true →
      altSuggestionMild.alternative_codes = []) ∧
    ∃ m ∈ mappingsOf reqMild, altSuggestionMild = mkSuggestion reqMild m ∧
      ∀ e ∈ altSuggestionMild.alternative_codes, ∃ m2 ∈ mappingsOf reqMild,
        m2.hcc_category ≠ "No HCC" ∧ altMatches m m2 = true ∧ e = fmtAlt m2 :=
  alternatives_shape reqMild altSuggestionMild (by decide)

/-- Claim C9 counterexample: the `reqStable` request yields no candidates and
the engine returns empty suggestions — but its recommendations list is
**empty**: no message advising broader review (such text appears nowhere in
the handler). -/
theorem empty_candidates_counterexample :
    mappingsOf reqStable = [] ∧
    (analyze_notes_intelligently reqStable).suggestions = [] ∧
    (analyze_notes_intelligently reqStable).recommendations = [] := by
  decide

/-- Claim C9 as amended: an empty candidate set is not an error — the engine
still returns a result with empty suggestions — but no broader-review message
is added: every recommendation is one of the two demographic notes, so absent
those triggers the list is empty. -/
theorem empty_candidates_graceful (data : AnalysisRequest)
    (h : mappingsOf data = []) :
    (analyze_notes_intelligently data).suggestions = [] ∧
    ∀ r ∈ (analyze_notes_intelligently data).recommendations,
      r = "[MEDICARE] MEDICARE PATIENT: Ensure annual HCC recapture for continued risk adjustment" ∨
      r = "[WARNING] HIGH DEMOGRAPHIC RISK: Age/gender profile increases clinical significance (factor: " ++
        fmtQ (demoMultOf data) ++ ")" := by
  have hs : sortedSuggestionsOf data = [] := by
    unfold sortedSuggestionsOf
    rw [h]
    rfl
  constructor
  · show (sortedSuggestionsOf data).take 10 = []
    rw [hs]
    rfl
  · intro r hr
    have hrec : (analyze_notes_intelligently data).recommendations =
        recommendationsOf data := rfl
    rw [hrec] at hr
    unfold recommendationsOf at hr
    rw [hs] at hr
    simp only [List.nil_append] at hr
    rcases List.mem_append.mp hr with h1 | h2
    · left
      split at h1
      · rcases List.mem_singleton.mp h1 with rfl
        rfl
      · simp at h1
    · right
      split at h2
      · rcases List.mem_singleton.mp h2 with rfl
        rfl
      · simp at h2

/-- Witness for C9's amended theorem at the concrete empty-candidate request
`reqStable`. -/
theorem empty_candidates_graceful_witness :
    (analyze_notes_intelligently reqStable).suggestions = [] ∧
    ∀ r ∈ (analyze_notes_intelligently reqStable).recommendations,
      r = "[MEDICARE] MEDICARE PATIENT: Ensure annual HCC recapture for continued risk adjustment" ∨
      r = "[WARNING] HIGH DEMOGRAPHIC RISK: Age/gender profile increases clinical significance (factor: " ++
        fmtQ (demoMultOf reqStable) ++ ")" :=
  empty_candidates_graceful reqStable (by decide)

/-- Claim C7: the store adapter never returns more than 8 raw candidates, and
the response holds at most 10 suggestions ordered descending by the tuple
(priority-tier weight with HIGH=3, MEDIUM=2, LOW=1, then confidence score,
then adjusted RAF): no later suggestion's key exceeds an earlier one's. -/
theorem result_size_and_order :
    (∀ kws : List String, (search_hcc_codes kws).length ≤ 8) ∧
    (∀ data : AnalysisRequest,
      (analyze_notes_intelligently data).suggestions.length ≤ 10 ∧
      (analyze_notes_intelligently data).suggestions.Pairwise
        (fun a b => ¬ tupLt (suggestionKey a) (suggestionKey b))) := by
  constructor
  · intro kws
    unfold search_hcc_codes
    simp only [List.length_map]
    exact List.length_take_le _ _
  · intro data
    constructor
    · show ((sortedSuggestionsOf data).take 10).length ≤ 10
      exact List.length_take_le _ _
    · have hasym : ∀ a b : ICDSuggestion, sugGt a b = true → sugGt b a = false := by
        intro a b h
        exact decide_eq_false (tupLt_asymm (of_decide_eq_true h))
      have htrans : ∀ a b c : ICDSuggestion,
          sugGt a b = true → sugGt b c = true → sugGt a c = true := by
        intro a b c hab hbc
        exact decide_eq_true (tupLt_trans (of_decide_eq_true hbc) (of_decide_eq_true hab))
      have hp : (sortedSuggestionsOf data).Pairwise (fun a b => sugGt b a = false) :=
        pairwise_sortG hasym htrans _
      have hp' : ((sortedSuggestionsOf data).take 10).Pairwise
          (fun a b => sugGt b a = false) :=
        List.Pairwise.sublist (List.take_sublist 10 _) hp
      exact hp'.imp (fun h => of_decide_eq_false h)

/-- Claim C3: with no external-model hint the pipeline is a pure function of
the clinical notes, primary diagnosis, demographics and medical history —
two requests agreeing on those fields (whatever their visit type, provider,
medications, lab values or legacy fields) produce identical responses; in
particular two invocations on one request agree. -/
theorem analysis_deterministic (r1 r2 : AnalysisRequest)
    (h1 : r1.clinical_notes = r2.clinical_notes)
    (h2 : r1.primary_diagnosis = r2.primary_diagnosis)
    (h3 : r1.patient_age = r2.patient_age)
    (h4 : r1.patient_gender = r2.patient_gender)
    (h5 : r1.patient_medical_history = r2.patient_medical_history) :
    analyze_notes_intelligently r1 = analyze_notes_intelligently r2 := by
  cases r1
  cases r2
  simp only at h1 h2 h3 h4 h5
  subst h1 h2 h3 h4 h5
  rfl

/-- Witness for C3: `reqHR` and `reqHR2` differ in visit type, provider name
and medications, yet analyze identically. -/
theorem analysis_deterministic_witness :
    analyze_notes_intelligently reqHR = analyze_notes_intelligently reqHR2 :=
  analysis_deterministic reqHR reqHR2 rfl rfl rfl rfl rfl

end AlphaAudit



